import Mathlib

/-!
Verification of the perception-network-status native monitor.

The development shallowly embeds the C++ sources:
- `src/native/Utils.h` / the utilities translation unit: `SignalMonitorContext`,
  `QualityToRSSI`;
- `src/native/NetworkMonitor.cpp`: the connectivity path (`PrintConnectivity`,
  `sendNetworkStatusMessage`, `StartNetworkMonitor`, `StopNetworkMonitor`),
  the wireless path (`WlanNotificationCallback`, `StartWlanMonitor`,
  `StopWlanMonitor`) and the process-exit teardown order (`OnExit`);
- the `CNetworkListManagerEvents` sink (`ConnectivityChanged`, `Release`).

Platform calls (COM, WLAN API) are modelled by passing their outcomes in as
explicit environment records; posted thread messages become explicit lists.
-/

/-! ## Connectivity flag constants (netlistmgr.h `NLM_CONNECTIVITY`) -/

def NLM_CONNECTIVITY_DISCONNECTED : Nat := 0
def NLM_CONNECTIVITY_IPV4_NOTRAFFIC : Nat := 0x1
def NLM_CONNECTIVITY_IPV6_NOTRAFFIC : Nat := 0x2
def NLM_CONNECTIVITY_IPV4_SUBNET : Nat := 0x10
def NLM_CONNECTIVITY_IPV4_LOCALNETWORK : Nat := 0x20
def NLM_CONNECTIVITY_IPV4_INTERNET : Nat := 0x40
def NLM_CONNECTIVITY_IPV6_SUBNET : Nat := 0x100
def NLM_CONNECTIVITY_IPV6_LOCALNETWORK : Nat := 0x200
def NLM_CONNECTIVITY_IPV6_INTERNET : Nat := 0x400

/-! ## Thread-message constants (`NetworkMonitor.cpp`, lines 13-14) -/

def WM_USER : Nat := 0x400
def WM_NETWORK_STATUS_CHANGE : Nat := WM_USER + 107
def WM_WIFI_SIGNAL_CHANGE : Nat := WM_USER + 108

/-- A message posted with `PostThreadMessage(g_mainThreadId, msg, wParam, lParam)`. -/
structure ThreadMessage where
  msg : Nat
  wParam : Nat
  lParam : Int
deriving DecidableEq

/-! ## `QualityToRSSI` (utilities translation unit, lines 6-10)

The C source computes `(int)((double)quality / 2.0) - 100` in the final
branch; for `1 <= quality <= 99` the double division is exact and the
int cast truncates a non-negative value, which is natural-number division. -/

def QualityToRSSI (quality : Nat) : Int :=
  if quality = 0 then -100
  else if quality ≥ 100 then -50
  else ((quality / 2 : Nat) : Int) - 100

/-! ## The connectivity path (`NetworkMonitor.cpp`) -/

/-- `hasInternet` as computed by `sendNetworkStatusMessage` (lines 64-65):
either the IPv4 or the IPv6 internet bit is set in the flag word. -/
def hasInternet (connectivity : Nat) : Bool :=
  (connectivity &&& NLM_CONNECTIVITY_IPV4_INTERNET != 0) ||
  (connectivity &&& NLM_CONNECTIVITY_IPV6_INTERNET != 0)

/-- `PrintConnectivity` (lines 34-60), restricted to its effect on the
global `g_networkConnected`: `false` on the fully-disconnected value,
`true` whenever an internet bit is seen, otherwise unchanged. -/
def PrintConnectivity (gNetworkConnected : Bool) (connectivity : Nat) : Bool :=
  if connectivity = NLM_CONNECTIVITY_DISCONNECTED then false
  else if (connectivity &&& NLM_CONNECTIVITY_IPV4_INTERNET != 0) ||
          (connectivity &&& NLM_CONNECTIVITY_IPV6_INTERNET != 0) then true
  else gNetworkConnected

/-- `sendNetworkStatusMessage` (lines 62-75): posts exactly one
`WM_NETWORK_STATUS_CHANGE` message, `wParam = 1` when `hasInternet`,
`wParam = 0` otherwise. -/
def sendNetworkStatusMessage (connectivity : Nat) : List ThreadMessage :=
  if hasInternet connectivity then [⟨WM_NETWORK_STATUS_CHANGE, 1, 0⟩]
  else [⟨WM_NETWORK_STATUS_CHANGE, 0, 0⟩]

/-- `CNetworkListManagerEvents::ConnectivityChanged` (sink translation unit,
lines 36-40): calls `PrintConnectivity` then `sendNetworkStatusMessage`.
Returns the updated `g_networkConnected` and the posted messages. -/
def ConnectivityChanged (gNetworkConnected : Bool) (newConnectivity : Nat) :
    Bool × List ThreadMessage :=
  (PrintConnectivity gNetworkConnected newConnectivity,
   sendNetworkStatusMessage newConnectivity)

/-- Folding `ConnectivityChanged` over a sequence of platform notifications,
collecting every posted message in delivery order. -/
def connectivityRun (gNetworkConnected : Bool) :
    List Nat → Bool × List ThreadMessage
  | [] => (gNetworkConnected, [])
  | c :: cs =>
    let r := ConnectivityChanged gNetworkConnected c
    let rest := connectivityRun r.1 cs
    (rest.1, r.2 ++ rest.2)

/-- The flag set of the spec's `ConnectivityState` data model; `disconnected`
is the absence of every bit (`NLM_CONNECTIVITY_DISCONNECTED = 0`). -/
structure ConnFlags where
  ipv4NoTraffic : Bool
  ipv4Subnet : Bool
  ipv4LocalNetwork : Bool
  ipv4Internet : Bool
  ipv6NoTraffic : Bool
  ipv6Subnet : Bool
  ipv6LocalNetwork : Bool
  ipv6Internet : Bool
deriving DecidableEq

/-- Encoding of a flag set into the platform's flag word. -/
def ConnFlags.encode (f : ConnFlags) : Nat :=
  (if f.ipv4NoTraffic then NLM_CONNECTIVITY_IPV4_NOTRAFFIC else 0) +
  (if f.ipv4Subnet then NLM_CONNECTIVITY_IPV4_SUBNET else 0) +
  (if f.ipv4LocalNetwork then NLM_CONNECTIVITY_IPV4_LOCALNETWORK else 0) +
  (if f.ipv4Internet then NLM_CONNECTIVITY_IPV4_INTERNET else 0) +
  (if f.ipv6NoTraffic then NLM_CONNECTIVITY_IPV6_NOTRAFFIC else 0) +
  (if f.ipv6Subnet then NLM_CONNECTIVITY_IPV6_SUBNET else 0) +
  (if f.ipv6LocalNetwork then NLM_CONNECTIVITY_IPV6_LOCALNETWORK else 0) +
  (if f.ipv6Internet then NLM_CONNECTIVITY_IPV6_INTERNET else 0)

/-! ## The wireless signal path (`NetworkMonitor.cpp`, `Utils.h`) -/

/-- `SignalMonitorContext` (`Utils.h`, lines 7-16). -/
structure SignalMonitorContext where
  thresholdDrop : Nat
  thresholdRecover : Nat
  isSignalWeak : Bool
  lastQuality : Nat
deriving DecidableEq

/-- The global `monitorCtx` initializer `{ 40, 50, false, 100 }`
(`NetworkMonitor.cpp`, line 248). -/
def monitorCtx : SignalMonitorContext := ⟨40, 50, false, 100⟩

/-- A wireless event as posted by `sendWlanStatusMessage` (lines 165-167),
tagged with the direction of the transition that produced it: `becameWeak`
is `true` for the strong-to-weak branch, `false` for weak-to-strong. -/
structure SignalEvent where
  becameWeak : Bool
  quality : Nat
  rssiDbm : Int
deriving DecidableEq

/-- The hysteresis core of `WlanNotificationCallback` for one
`wlan_notification_msm_signal_quality_change` payload (lines 192-227):
branch 1 (line 198), branch 2 (line 210), and the unconditional
`lastQuality` update (line 221). -/
def wlanSignalStep (pMonitor : SignalMonitorContext) (currentQuality : Nat) :
    SignalMonitorContext × Option SignalEvent :=
  if pMonitor.isSignalWeak = false ∧ currentQuality ≤ pMonitor.thresholdDrop then
    ({ pMonitor with isSignalWeak := true, lastQuality := currentQuality },
     some ⟨true, currentQuality, QualityToRSSI currentQuality⟩)
  else if pMonitor.isSignalWeak = true ∧ currentQuality ≥ pMonitor.thresholdRecover then
    ({ pMonitor with isSignalWeak := false, lastQuality := currentQuality },
     some ⟨false, currentQuality, QualityToRSSI currentQuality⟩)
  else
    ({ pMonitor with lastQuality := currentQuality }, none)

/-- The notification kinds `WlanNotificationCallback` can receive: only
MSM-source notifications are inspected (line 184); of those only
`wlan_notification_msm_signal_quality_change` touches the state. -/
inductive WlanNotifyData where
  | msmSignalQualityChange (quality : Nat)
  | msmConnected
  | msmDisconnected
  | msmOther
  | nonMsmSource
deriving DecidableEq

/-- `WlanNotificationCallback` (lines 173-245) as a state transformer:
everything except an MSM signal-quality payload leaves the context
untouched and posts nothing. -/
def WlanNotificationCallback (pMonitor : SignalMonitorContext) :
    WlanNotifyData → SignalMonitorContext × Option SignalEvent
  | .msmSignalQualityChange q => wlanSignalStep pMonitor q
  | .msmConnected => (pMonitor, none)
  | .msmDisconnected => (pMonitor, none)
  | .msmOther => (pMonitor, none)
  | .nonMsmSource => (pMonitor, none)

/-- Folding the signal-quality callback over a sequence of quality
notifications, collecting the emitted events in order. -/
def wlanSignalRun (pMonitor : SignalMonitorContext) :
    List Nat → SignalMonitorContext × List SignalEvent
  | [] => (pMonitor, [])
  | q :: qs =>
    let r := wlanSignalStep pMonitor q
    let rest := wlanSignalRun r.1 qs
    (rest.1, r.2.toList ++ rest.2)

/-- Outcomes of the platform calls `StartWlanMonitor` makes
(`WlanOpenHandle`, `WlanEnumInterfaces`, `WlanQueryInterface`,
`WlanRegisterNotification`), passed in as an environment. -/
structure WlanStartEnv where
  openOk : Bool
  enumOk : Bool
  numInterfaces : Nat
  queryOk : Bool
  ifaceConnected : Bool
  startQuality : Nat
  registerOk : Bool
deriving DecidableEq

/-- `StartWlanMonitor` (lines 249-321) as a function of the global context
and the platform-call outcomes, returning the C return code and the updated
context. The source performs no comparison between `thresholdRecover` and
`thresholdDrop`; the baseline `isSignalWeak` is set from the one-shot
quality query (lines 281-289) with no message posted. -/
def StartWlanMonitor (ctx : SignalMonitorContext) (env : WlanStartEnv) :
    Nat × SignalMonitorContext :=
  if env.openOk = false then (1, ctx)
  else
    let ctx1 :=
      if env.enumOk = true ∧ 0 < env.numInterfaces ∧ env.queryOk = true ∧
         env.ifaceConnected = true then
        if env.startQuality ≤ ctx.thresholdDrop then
          { ctx with isSignalWeak := true, lastQuality := env.startQuality }
        else
          { ctx with isSignalWeak := false, lastQuality := env.startQuality }
      else ctx
    if env.registerOk = false then (1, ctx1) else (0, ctx1)

/-! ## `StartNetworkMonitor` (lines 83-141) -/

/-- Outcomes of the COM calls `StartNetworkMonitor` makes, passed in as an
environment (`CoInitializeEx`, `CoCreateInstance`, the two interface
queries, `Advise`, `GetConnectivity`). -/
structure NetStartEnv where
  coInitOk : Bool
  createOk : Bool
  queryContainerOk : Bool
  findPointOk : Bool
  adviseOk : Bool
  getConnOk : Bool
  currentConnectivity : Nat
deriving DecidableEq

/-- `StartNetworkMonitor` as a function of the COM-call outcomes, returning
the C return code, the updated `g_networkConnected`, and the messages it
posts. On a successful registration it queries connectivity once
(lines 124-131) and posts the initial status message only inside the
`currentConnectivity == NLM_CONNECTIVITY_DISCONNECTED` branch (line 128). -/
def StartNetworkMonitor (gNetworkConnected : Bool) (env : NetStartEnv) :
    Nat × Bool × List ThreadMessage :=
  if env.coInitOk = false then (1, gNetworkConnected, [])
  else if env.createOk = false then (1, gNetworkConnected, [])
  else if env.queryContainerOk = true ∧ env.findPointOk = true then
    if env.adviseOk = true then
      if env.getConnOk = true then
        let g1 := PrintConnectivity gNetworkConnected env.currentConnectivity
        if env.currentConnectivity = NLM_CONNECTIVITY_DISCONNECTED then
          (0, g1, [⟨WM_NETWORK_STATUS_CHANGE, 0, 0⟩])
        else (0, g1, [])
      else (0, gNetworkConnected, [])
    else (0, gNetworkConnected, [])
  else (0, gNetworkConnected, [])

/-! ## `StopNetworkMonitor` (lines 143-163) and `StopWlanMonitor` (lines 323-339)

The COM globals (lines 77-81) are modelled as a record of pointer
nullness plus an explicit liveness bit and reference count for the heap
sink object `g_pNetEvents`, so that `Release()` on an already-deleted
object is observable as a fault. `CoInitializeEx` / `CoUninitialize`
balancing has no observable effect here and is not tracked. -/

inductive TeardownFault where
  | useAfterFree
deriving DecidableEq

/-- The globals `g_pConnectPoint`, `g_pCPContainer`, `g_pNetworkListManager`
(pointer non-null?), and the sink `g_pNetEvents`: pointer non-null, heap
object still allocated, and its `m_lRef` reference count. -/
structure NetMonGlobals where
  pConnectPoint : Bool
  pCPContainer : Bool
  pNetworkListManager : Bool
  pNetEvents : Bool
  netEventsAlive : Bool
  netEventsRef : Nat
deriving DecidableEq

/-- The zero-initialized globals before `StartNetworkMonitor` ever ran
(all pointers `NULL`, lines 77-81). -/
def initialGlobals : NetMonGlobals := ⟨false, false, false, false, false, 0⟩

/-- The globals after a fully successful `StartNetworkMonitor`: all four
pointers non-null; the sink is alive with `m_lRef = 2` (1 from its
constructor, +1 from the `QueryInterface`/`AddRef` performed by `Advise`,
which the comment at line 150 records). -/
def startedGlobals : NetMonGlobals := ⟨true, true, true, true, true, 2⟩

/-- One `Release()` on the sink object
(`CNetworkListManagerEvents::Release`, sink translation unit lines 14-21):
decrement `m_lRef`; `delete this` at zero. Invoking it on the already
deleted object is undefined behaviour, modelled as a fault. -/
def netEventsRelease (s : NetMonGlobals) : Except TeardownFault NetMonGlobals :=
  if s.netEventsAlive = false then .error .useAfterFree
  else if s.netEventsRef - 1 = 0 then
    .ok { s with netEventsRef := 0, netEventsAlive := false }
  else .ok { s with netEventsRef := s.netEventsRef - 1 }

/-- `StopNetworkMonitor` (lines 143-163): `Unadvise` when `g_pConnectPoint`
is non-null (which drops the reference COM took at `Advise` time), then
`g_pNetEvents->Release()` when that pointer is non-null — the source never
sets `g_pNetEvents` back to `NULL` — then `SafeRelease` on the three
interface pointers, which does null them. -/
def StopNetworkMonitor (s : NetMonGlobals) : Except TeardownFault NetMonGlobals := do
  let s1 ← if s.pConnectPoint = true then netEventsRelease s else pure s
  let s2 ← if s1.pNetEvents = true then netEventsRelease s1 else pure s1
  pure { s2 with pConnectPoint := false, pCPContainer := false,
                 pNetworkListManager := false }

/-- The WLAN global `g_hClient` (line 247): whether the handle is open. -/
structure WlanGlobals where
  hClientOpen : Bool
deriving DecidableEq

def ERROR_SUCCESS : Nat := 0
def ERROR_INVALID_HANDLE : Nat := 6

/-- `StopWlanMonitor` (lines 323-339): unregister the notification source,
then `WlanCloseHandle`. Both API calls merely return an error code when the
handle is `NULL` or already closed; neither faults, so the function is
total. Returns the new state and the two API result codes. -/
def StopWlanMonitor (w : WlanGlobals) : WlanGlobals × List Nat :=
  let r1 := if w.hClientOpen then ERROR_SUCCESS else ERROR_INVALID_HANDLE
  let r2 := if w.hClientOpen then ERROR_SUCCESS else ERROR_INVALID_HANDLE
  (⟨false⟩, [r1, r2])

/-! ## Shutdown ordering (`OnExit`, lines 349-353; `main`, lines 355-376) -/

/-- The individual teardown steps the two stop functions perform, in the
order the statements appear in the source. -/
inductive TeardownStep where
  | unadviseConnectivitySink
  | releaseNetEventsSink
  | releaseConnectPoint
  | releaseCPContainer
  | releaseNetworkListManager
  | comUninit
  | wlanUnregisterNotify
  | wlanCloseClientHandle
deriving DecidableEq

/-- Statement order of `StopNetworkMonitor` (lines 146-161): `Unadvise`,
`g_pNetEvents->Release()`, `SafeRelease(&g_pConnectPoint)`,
`SafeRelease(&g_pCPContainer)`, `SafeRelease(&g_pNetworkListManager)`,
`CoUninitialize()`. -/
def stopNetworkMonitorTrace : List TeardownStep :=
  [.unadviseConnectivitySink, .releaseNetEventsSink, .releaseConnectPoint,
   .releaseCPContainer, .releaseNetworkListManager, .comUninit]

/-- Statement order of `StopWlanMonitor` (lines 328-338):
`WlanRegisterNotification(..., WLAN_NOTIFICATION_SOURCE_NONE, ...)` then
`WlanCloseHandle`. -/
def stopWlanMonitorTrace : List TeardownStep :=
  [.wlanUnregisterNotify, .wlanCloseClientHandle]

/-- `OnExit` (lines 349-353) — identically the tail of `main`
(lines 373-374) — calls `StopNetworkMonitor()` first and
`StopWlanMonitor()` second. -/
def OnExitTrace : List TeardownStep :=
  stopNetworkMonitorTrace ++ stopWlanMonitorTrace

/-- Modelled from the spec: the shutdown order section 4.4 claims —
wireless subscriber unregistered first, then the connectivity subscriber,
then subscriber objects, then intermediate interface references, then the
root platform object, and the process-wide runtime context last. Written
from the spec's words, for comparison with `OnExitTrace`. -/
def specClaimedTeardownOrder : List TeardownStep :=
  [.wlanUnregisterNotify, .wlanCloseClientHandle, .unadviseConnectivitySink,
   .releaseNetEventsSink, .releaseConnectPoint, .releaseCPContainer,
   .releaseNetworkListManager, .comUninit]

/-! ## Theorems -/

/-- Helper: the rational floor of `q / 2` is natural division by two. -/
theorem floor_half_eq (q : Nat) : ⌊(q : ℚ) / 2⌋ = ((q / 2 : Nat) : Int) := by
  rw [show ((2 : ℚ)) = ((2 : ℕ) : ℚ) by norm_num,
      Rat.floor_natCast_div_natCast]
  norm_cast

/-- Helper: `QualityToRSSI` is the clamped half-minus-hundred map. -/
theorem qualityToRSSI_eq_min (q : Nat) :
    QualityToRSSI q = min (((q / 2 : Nat) : Int) - 100) (-50) := by
  unfold QualityToRSSI
  split
  · next h => subst h; decide
  · next h =>
    split
    · next h2 => omega
    · next h2 => omega

/-- C8: for every quality value `q`, `QualityToRSSI` returns `-100` when
`q = 0`, `-50` when `q ≥ 100`, and `⌊q / 2⌋ - 100` otherwise; in
particular `QualityToRSSI 0 = -100`, `QualityToRSSI 100 = -50` and
`QualityToRSSI 40 = -80`. -/
theorem qualityToRSSI_branches :
    QualityToRSSI 0 = -100 ∧ QualityToRSSI 100 = -50 ∧ QualityToRSSI 40 = -80 ∧
    (∀ q : Nat, q = 0 → QualityToRSSI q = -100) ∧
    (∀ q : Nat, 100 ≤ q → QualityToRSSI q = -50) ∧
    (∀ q : Nat, q ≠ 0 → q < 100 → QualityToRSSI q = ⌊(q : ℚ) / 2⌋ - 100) := by
  refine ⟨by decide, by decide, by decide, ?_, ?_, ?_⟩
  · intro q hq; subst hq; decide
  · intro q hq; unfold QualityToRSSI
    rw [if_neg (by omega), if_pos (by omega)]
  · intro q hq0 hq100
    rw [floor_half_eq]
    unfold QualityToRSSI
    rw [if_neg hq0, if_neg (by omega)]

/-- Witness for C8: the untaken-branches clause applied at quality 7. -/
theorem qualityToRSSI_branches_witness :
    QualityToRSSI 7 = ⌊((7 : Nat) : ℚ) / 2⌋ - 100 :=
  qualityToRSSI_branches.2.2.2.2.2 7 (by decide) (by decide)

/-- C10: `QualityToRSSI` always lands in `[-100, -50]`, is monotone
non-decreasing, and the `otherwise` formula agrees with the special-cased
branches at the boundaries `q = 0` and `q = 100`. -/
theorem qualityToRSSI_range_monotone :
    (∀ q : Nat, -100 ≤ QualityToRSSI q ∧ QualityToRSSI q ≤ -50) ∧
    (∀ q1 q2 : Nat, q1 ≤ q2 → QualityToRSSI q1 ≤ QualityToRSSI q2) ∧
    QualityToRSSI 0 = ((0 / 2 : Nat) : Int) - 100 ∧
    QualityToRSSI 100 = ((100 / 2 : Nat) : Int) - 100 := by
  refine ⟨?_, ?_, by decide, by decide⟩
  · intro q
    rw [qualityToRSSI_eq_min]
    constructor <;> omega
  · intro q1 q2 h
    rw [qualityToRSSI_eq_min, qualityToRSSI_eq_min]
    omega

/-- Witness for C10: monotonicity applied at 30 ≤ 80. -/
theorem qualityToRSSI_range_monotone_witness :
    QualityToRSSI 30 ≤ QualityToRSSI 80 :=
  qualityToRSSI_range_monotone.2.1 30 80 (by decide)

/-- C7: on every combination of the connectivity flag set, the derived
`hasInternet` is `true` iff the `ipv4Internet` or the `ipv6Internet` flag
is set — all other combinations (no-traffic, subnet, local-network,
fully disconnected) derive `false`. -/
theorem hasInternet_iff_internet_flag :
    (∀ f : ConnFlags, hasInternet f.encode = (f.ipv4Internet || f.ipv6Internet)) ∧
    hasInternet NLM_CONNECTIVITY_DISCONNECTED = false := by
  constructor
  · intro f
    rcases f with ⟨a, b, c, d, e, g, h, i⟩
    cases a <;> cases b <;> cases c <;> cases d <;> cases e <;> cases g <;>
      cases h <;> cases i <;> decide
  · decide

/-- C9: every MSM signal-quality notification carrying quality `q` leaves
`lastQuality = q`, in all three branches of the hysteresis state machine
(drop transition, recover transition, and the dead zone). -/
theorem lastQuality_updated_in_all_branches :
    ∀ (m : SignalMonitorContext) (q : Nat),
      (WlanNotificationCallback m (.msmSignalQualityChange q)).1.lastQuality = q := by
  intro m q
  show (wlanSignalStep m q).1.lastQuality = q
  unfold wlanSignalStep
  split
  · rfl
  · split <;> rfl

/-- C1: with thresholds 40/50 from the strong state, the quality sequence
`[60, 45, 38, 42, 55]` emits exactly the two events
`⟨becameWeak := true, 38⟩` and `⟨becameWeak := false, 55⟩`; and in general
from `isSignalWeak = false` a quality `q` emits (and switches to weak) iff
`q ≤ thresholdDrop`, while from `isSignalWeak = true` it emits (and
switches to strong) iff `q ≥ thresholdRecover`. -/
theorem hysteresis_state_machine :
    (wlanSignalRun ⟨40, 50, false, 100⟩ [60, 45, 38, 42, 55]).2 =
      [⟨true, 38, QualityToRSSI 38⟩, ⟨false, 55, QualityToRSSI 55⟩] ∧
    (∀ (m : SignalMonitorContext) (q : Nat), m.isSignalWeak = false →
      (((wlanSignalStep m q).2 = some ⟨true, q, QualityToRSSI q⟩ ∧
        (wlanSignalStep m q).1.isSignalWeak = true) ↔ q ≤ m.thresholdDrop)) ∧
    (∀ (m : SignalMonitorContext) (q : Nat), m.isSignalWeak = true →
      (((wlanSignalStep m q).2 = some ⟨false, q, QualityToRSSI q⟩ ∧
        (wlanSignalStep m q).1.isSignalWeak = false) ↔ m.thresholdRecover ≤ q)) := by
  refine ⟨by decide, ?_, ?_⟩
  · intro m q hm
    by_cases hq : q ≤ m.thresholdDrop <;> simp [wlanSignalStep, hm, hq]
  · intro m q hm
    by_cases hq : m.thresholdRecover ≤ q <;> simp [wlanSignalStep, hm, hq]

/-- Witness for C1: the drop transition at quality 38 from the strong
40/50 context. -/
theorem hysteresis_state_machine_witness :
    (wlanSignalStep ⟨40, 50, false, 100⟩ 38).2 =
      some ⟨true, 38, QualityToRSSI 38⟩ ∧
    (wlanSignalStep ⟨40, 50, false, 100⟩ 38).1.isSignalWeak = true :=
  (hysteresis_state_machine.2.1 ⟨40, 50, false, 100⟩ 38 rfl).mpr (by decide)

/-- C2 counterexample: two consecutive notifications carrying the same
`hasInternet` value (both with the IPv4 internet bit) produce two posted
status messages, not one — the callback path performs no comparison with
the previously emitted value. -/
theorem connectivity_no_dedup_counterexample :
    (connectivityRun false
        [NLM_CONNECTIVITY_IPV4_INTERNET, NLM_CONNECTIVITY_IPV4_INTERNET]).2 =
      [⟨WM_NETWORK_STATUS_CHANGE, 1, 0⟩, ⟨WM_NETWORK_STATUS_CHANGE, 1, 0⟩] ∧
    (connectivityRun false
        [NLM_CONNECTIVITY_IPV4_INTERNET, NLM_CONNECTIVITY_IPV4_INTERNET]).2.length
      ≠ 1 := by
  decide

/-- C2 amended: every connectivity notification posts exactly one
`WM_NETWORK_STATUS_CHANGE` message whose payload is the freshly derived
`hasInternet` — unconditionally, with no de-duplication against the last
emitted value. -/
theorem connectivity_emits_on_every_event :
    ∀ (g : Bool) (c : Nat),
      (ConnectivityChanged g c).2 =
        [⟨WM_NETWORK_STATUS_CHANGE, if hasInternet c then 1 else 0, 0⟩] := by
  intro g c
  unfold ConnectivityChanged sendNetworkStatusMessage
  by_cases h : hasInternet c <;> simp [h]

/-- C3 counterexample: with every COM call succeeding and the initial
connectivity query returning the IPv4-internet flag (a connected state),
`StartNetworkMonitor` posts no initial status message at all. -/
theorem initial_snapshot_counterexample :
    (StartNetworkMonitor false
        ⟨true, true, true, true, true, true, NLM_CONNECTIVITY_IPV4_INTERNET⟩).2.2
      = [] ∧
    (StartNetworkMonitor false
        ⟨true, true, true, true, true, true, NLM_CONNECTIVITY_IPV4_INTERNET⟩).2.2.length
      ≠ 1 := by
  decide

/-- C3 amended: when registration and the one synchronous connectivity
query both succeed, `StartNetworkMonitor` returns 0 and posts the initial
status message only when the query result is exactly the
fully-disconnected value; every other (connected) result posts nothing. -/
theorem initial_snapshot_disconnected_only (env : NetStartEnv) (g : Bool)
    (h1 : env.coInitOk = true) (h2 : env.createOk = true)
    (h3 : env.queryContainerOk = true) (h4 : env.findPointOk = true)
    (h5 : env.adviseOk = true) (h6 : env.getConnOk = true) :
    (StartNetworkMonitor g env).1 = 0 ∧
    (StartNetworkMonitor g env).2.2 =
      (if env.currentConnectivity = NLM_CONNECTIVITY_DISCONNECTED
       then [⟨WM_NETWORK_STATUS_CHANGE, 0, 0⟩] else []) := by
  unfold StartNetworkMonitor
  by_cases hd : env.currentConnectivity = NLM_CONNECTIVITY_DISCONNECTED <;>
    simp [h1, h2, h3, h4, h5, h6, hd]

/-- Witness for C3 amended: all COM calls succeed and the query reports
the disconnected value 0. -/
theorem initial_snapshot_disconnected_only_witness :
    (StartNetworkMonitor false ⟨true, true, true, true, true, true, 0⟩).1 = 0 ∧
    (StartNetworkMonitor false ⟨true, true, true, true, true, true, 0⟩).2.2 =
      (if (0 : Nat) = NLM_CONNECTIVITY_DISCONNECTED
       then [⟨WM_NETWORK_STATUS_CHANGE, 0, 0⟩] else []) :=
  initial_snapshot_disconnected_only ⟨true, true, true, true, true, true, 0⟩ false
    rfl rfl rfl rfl rfl rfl

/-- C4: evaluating the teardown at the failing input. A first
`StopNetworkMonitor` after a successful start deletes the sink object but
leaves `g_pNetEvents` non-null, so a second `StopNetworkMonitor` calls
`Release()` on the deleted object — a use-after-free fault — contradicting
the claimed idempotency; stop-before-start is a safe no-op, and double
`StopWlanMonitor` never faults (its API calls only return error codes). -/
theorem stop_twice_use_after_free :
    StopNetworkMonitor startedGlobals = .ok ⟨false, false, false, true, false, 0⟩ ∧
    (StopNetworkMonitor startedGlobals >>= StopNetworkMonitor) =
      .error .useAfterFree ∧
    StopNetworkMonitor initialGlobals = .ok initialGlobals ∧
    (StopWlanMonitor (StopWlanMonitor ⟨true⟩).1).1 = ⟨false⟩ ∧
    (StopWlanMonitor ⟨false⟩).1 = ⟨false⟩ :=
  ⟨rfl, rfl, rfl, rfl, rfl⟩

/-- C5 counterexample: the process-exit teardown begins with the
connectivity unadvise, not the wireless unregister, ends with the wireless
handle close (after `CoUninitialize`), and differs from the
reverse-of-acquisition order the claim states. -/
theorem shutdown_order_counterexample :
    OnExitTrace.head? = some .unadviseConnectivitySink ∧
    OnExitTrace.getLast? = some .wlanCloseClientHandle ∧
    OnExitTrace ≠ specClaimedTeardownOrder := by
  decide

/-- C5 amended: teardown runs the whole connectivity chain first —
unadvise, release the sink, release the interface pointers in reverse
acquisition order, `CoUninitialize` — and only then unregisters the
wireless notification and closes the wireless handle. -/
theorem shutdown_order_actual :
    OnExitTrace =
      [.unadviseConnectivitySink, .releaseNetEventsSink, .releaseConnectPoint,
       .releaseCPContainer, .releaseNetworkListManager, .comUninit,
       .wlanUnregisterNotify, .wlanCloseClientHandle] := by
  decide

/-- C6 counterexample: a context whose `thresholdRecover` (40) is below
its `thresholdDrop` (50) still initializes successfully — return code 0,
no configuration error — so no threshold validation takes place. -/
theorem threshold_validation_counterexample :
    (StartWlanMonitor ⟨50, 40, false, 100⟩ ⟨true, true, 1, true, true, 45, true⟩).1
      = 0 ∧
    (⟨50, 40, false, 100⟩ : SignalMonitorContext).thresholdRecover ≤
      (⟨50, 40, false, 100⟩ : SignalMonitorContext).thresholdDrop := by
  decide

/-- C6 amended: `StartWlanMonitor` performs no threshold validation — its
return code depends only on the `WlanOpenHandle` and
`WlanRegisterNotification` outcomes, never on the threshold pair; the
invariant holds in the shipped build only because the hard-coded
`monitorCtx` constants are 40/50, and the baseline
`isSignalWeak = (startQuality ≤ thresholdDrop)` is set with no message
posted. -/
theorem no_threshold_validation (ctx : SignalMonitorContext) (env : WlanStartEnv)
    (hopen : env.openOk = true) :
    (StartWlanMonitor ctx env).1 = (if env.registerOk = true then 0 else 1) ∧
    monitorCtx.thresholdDrop < monitorCtx.thresholdRecover ∧
    (env.enumOk = true ∧ 0 < env.numInterfaces ∧ env.queryOk = true ∧
       env.ifaceConnected = true →
     (StartWlanMonitor ctx env).2.isSignalWeak =
       decide (env.startQuality ≤ ctx.thresholdDrop)) := by
  refine ⟨?_, by decide, ?_⟩
  · unfold StartWlanMonitor
    by_cases hr : env.registerOk = true <;> simp [hopen, hr]
  · intro hconn
    unfold StartWlanMonitor
    by_cases hs : env.startQuality ≤ ctx.thresholdDrop <;>
      by_cases hr : env.registerOk = true <;>
        simp [hopen, hconn, hs, hr]

/-- Witness for C6 amended: the shipped context and an all-success
environment with start quality 45. -/
theorem no_threshold_validation_witness :
    (StartWlanMonitor ⟨40, 50, false, 100⟩
        ⟨true, true, 1, true, true, 45, true⟩).2.isSignalWeak =
      decide ((45 : Nat) ≤ (40 : Nat)) :=
  (no_threshold_validation ⟨40, 50, false, 100⟩
      ⟨true, true, 1, true, true, 45, true⟩ rfl).2.2
    ⟨rfl, by decide, rfl, rfl⟩

